import Mathlib

/-!
Shallow embedding of the view layer of mk-dv/simple-blog-django
(src/blog/views.py) and proofs about its behaviour.

The data store (posts, tags, comments) is modelled as explicit lists; each
Django view becomes a pure function from the store and the request data to
an optional result (`none` standing for the Http404 / NOT_FOUND condition).
External collaborators (form validation, trigram similarity, mail transport)
are parameters of the view functions.
-/

namespace Blog

/-- The status field of a Post: `'DRAFT'` or `'PUBLISHED'`. -/
inductive Status where
  | draft
  | published
deriving DecidableEq, Repr

/-- The publish timestamp of a Post, with its calendar fields (used by the
date-scoped lookup of `post_detail`) and a linear timestamp `ts` used for
`order_by('-publish')`. -/
structure Publish where
  year : Nat
  month : Nat
  day : Nat
  ts : Nat
deriving DecidableEq, Repr

/-- A row of the Post table: id, slug, title, body, status, publish
timestamp and the ids of its attached tags (the taggit many-to-many,
duplicate-free per post). -/
structure Post where
  id : Nat
  slug : String
  title : String
  body : String
  status : Status
  publish : Publish
  tags : List Nat
deriving DecidableEq, Repr

/-- A row of the taggit Tag table: id, slug, name. -/
structure Tag where
  id : Nat
  slug : String
  name : String
deriving DecidableEq, Repr

/-- A row of the Comment table: `post` is the id of the owning Post
(the foreign key), `active` the visibility flag. -/
structure Comment where
  id : Nat
  name : String
  email : String
  body : String
  post : Nat
  active : Bool
deriving DecidableEq, Repr

/-- The relational store the views query: the Post, Tag and Comment
tables. -/
structure Store where
  posts : List Post
  tags : List Tag
  comments : List Comment
deriving DecidableEq, Repr

/-- Modelled from the spec: the `Post.published` manager of
src/blog/models.py (not in src/): the Post Store's "published" view, the
rows whose status field equals PUBLISHED ("Published post: a post whose
status field equals PUBLISHED"). -/
def publishedPosts (s : Store) : List Post :=
  s.posts.filter (fun p => p.status = Status.published)

/-- The data a comment POST submits (the fields of CommentForm, plus
`postRef`, a post reference a client might smuggle into the submission;
the view never reads it: views.py:49 assigns the post server-side). -/
structure CommentFormData where
  name : String
  email : String
  body : String
  postRef : Option Nat
deriving DecidableEq, Repr

/-- Modelled from the spec: CommentForm validation (src/blog/forms.py is
not in src/). The spec's failure mode is "Submitting a comment with a
missing required field"; the form is valid when every required field
(name, email, body) is non-empty. -/
def specCommentValid (d : CommentFormData) : Bool :=
  d.name ≠ "" && d.email ≠ "" && d.body ≠ ""

/-- What `form.save(commit=False)` (views.py:47) builds: an unsaved Comment from
the form's fields; its post reference is whatever the client data carried
(0 when none), `active` is the store-schema default `true`. -/
def commentFromForm (d : CommentFormData) (newId : Nat) : Comment :=
  { id := newId
    name := d.name
    email := d.email
    body := d.body
    post := d.postRef.getD 0
    active := true }

/-- The shared-tag annotation `same_tags=Count('tags')` of views.py:59:
after `filter(tags__in=ids)` the join keeps exactly the candidate's tags
that lie in `ids`, so the count is the number of tags shared with the
target post. -/
def sharedTagCount (q : Post) (ids : List Nat) : Nat :=
  (q.tags.filter (fun t => ids.contains t)).length

/-- The ordering `order_by('-same_tags', '-publish')` of views.py:60:
descending shared-tag count, then descending publish timestamp. -/
def simRel (a b : Post × Nat) : Prop :=
  b.2 < a.2 ∨ (a.2 = b.2 ∧ b.1.publish.ts ≤ a.1.publish.ts)

instance : DecidableRel simRel := fun a b => by
  unfold simRel; infer_instance

instance : IsTotal (Post × Nat) simRel where
  total a b := by
    rcases Nat.lt_trichotomy a.2 b.2 with h | h | h
    · exact Or.inr (Or.inl h)
    · rcases Nat.le_total b.1.publish.ts a.1.publish.ts with h2 | h2
      · exact Or.inl (Or.inr ⟨h, h2⟩)
      · exact Or.inr (Or.inr ⟨h.symm, h2⟩)
    · exact Or.inl (Or.inl h)

instance : IsTrans (Post × Nat) simRel where
  trans a b c hab hbc := by
    rcases hab with h1 | ⟨h1, h1t⟩ <;> rcases hbc with h2 | ⟨h2, h2t⟩
    · exact Or.inl (Nat.lt_trans h2 h1)
    · exact Or.inl (h2 ▸ h1)
    · exact Or.inl (h1 ▸ h2)
    · exact Or.inr ⟨h1.trans h2, Nat.le_trans h2t h1t⟩

/-- The unordered rows of the similar-posts query of views.py:57-59:
`Post.published.filter(tags__in=post_tags_ids).exclude(id=post.id)
.annotate(same_tags=Count('tags'))` — published posts sharing a tag with
the target post `p`, excluding `p` itself, each with its shared-tag
count. -/
def similarCandidates (s : Store) (p : Post) : List (Post × Nat) :=
  (((publishedPosts s).filter (fun q => q.tags.any (fun t => p.tags.contains t))).filter
      (fun q => q.id ≠ p.id)).map (fun q => (q, sharedTagCount q p.tags))

/-- The similar-posts query of views.py:55-61: the candidate rows ordered
by `order_by('-same_tags', '-publish')` and truncated to `limit`
(`[:similar_posts_number]`) entries. -/
def similarPosts (s : Store) (p : Post) (limit : Nat) : List (Post × Nat) :=
  (List.insertionSort simRel (similarCandidates s p)).take limit

/-- The predicate of the `get_object_or_404` lookup of views.py:35-37:
slug, status PUBLISHED, and the full publish date. -/
def detailMatch (slug : String) (year month day : Nat) (p : Post) : Prop :=
  p.slug = slug ∧ p.status = Status.published ∧
    p.publish.year = year ∧ p.publish.month = month ∧ p.publish.day = day

instance (slug : String) (year month day : Nat) :
    DecidablePred (detailMatch slug year month day) := fun p => by
  unfold detailMatch; infer_instance

/-- The lookup `get_object_or_404(Post, slug=post, status='PUBLISHED',
publish__year=year, publish__month=month, publish__day=day)`
(views.py:35-37): `some` the matching post, `none` the Http404. -/
def detailLookup (s : Store) (year month day : Nat) (slug : String) : Option Post :=
  s.posts.find? (fun p => decide (detailMatch slug year month day p))

/-- A CommentForm instance as the template receives it: `none` is the
unbound blank `CommentForm()`, `some d` a form bound to submitted data
`d`. -/
def CommentForm : Type := Option CommentFormData
deriving instance DecidableEq, Repr for CommentForm

/-- The view-model `post_detail` renders (views.py:63-68) together with
the post-state of the store: the resolved post, the active comments, the
newly persisted comment (when one was), the comment form handed to the
template (`none` on GET, views.py:41), the similar-posts list, and the
store after the request. -/
structure DetailResult where
  post : Post
  comments : List Comment
  newComment : Option Comment
  commentForm : Option CommentForm
  similarPosts : List (Post × Nat)
  store : Store
deriving DecidableEq, Repr

/-- The comment-intake step of views.py:43-52 on a resolved post (the new
comment, the form handed to the template, the store after the step)
followed by the render of views.py:63-68. On a valid POST the unsaved
comment of `form.save(commit=False)` gets its post reference overwritten
with the resolved post's id (views.py:49) before it is appended to the
store; on an invalid POST the form is replaced with the blank
`CommentForm()` of views.py:52 and nothing is written. -/
def detailRender (s : Store) (post : Post) (req : Option CommentFormData)
    (valid : CommentFormData → Bool) (newId limit : Nat) : DetailResult :=
  let step : Option Comment × Option CommentForm × Store :=
    match req with
    | none => (none, none, s)
    | some d =>
      if valid d then
        let c := { commentFromForm d newId with post := post.id }
        (some c, some (some d), { s with comments := s.comments ++ [c] })
      else
        (none, some none, s)
  let s2 := step.2.2
  { post := post
    comments := s2.comments.filter (fun c => c.post = post.id && c.active)
    newComment := step.1
    commentForm := step.2.1
    similarPosts := similarPosts s2 post limit
    store := s2 }

/-- The `post_detail` view (views.py:14-68). `req` is `none` for GET and
`some d` for a POST carrying form data `d`; `valid` is the CommentForm
validation (an external collaborator); `newId` the id the store assigns a
persisted comment; `limit` the `similar_posts_number` argument, default 4.
Returns `none` on the lookup's Http404. -/
def postDetail (s : Store) (year month day : Nat) (slug : String)
    (req : Option CommentFormData) (valid : CommentFormData → Bool)
    (newId : Nat) (limit : Nat := 4) : Option DetailResult :=
  match detailLookup s year month day slug with
  | none => none
  | some post => some (detailRender s post req valid newId limit)

/-- Django's `Paginator.num_pages` with `orphans=0` and
`allow_empty_first_page=True` (the defaults the view uses):
`ceil(max(1, count) / per_page)`. -/
def numPages (count perPage : Nat) : Nat :=
  (max 1 count + perPage - 1) / perPage

/-- The value of a decimal digit character, `none` for a non-digit. -/
def digitVal (c : Char) : Option Nat :=
  if '0' ≤ c ∧ c ≤ '9' then some (c.toNat - Char.toNat '0') else none

/-- Decimal digits folded into a number, `none` on any non-digit. -/
def digitsToNat : List Char → Nat → Option Nat
  | [], acc => some acc
  | c :: cs, acc =>
    match digitVal c with
    | none => none
    | some d => digitsToNat cs (acc * 10 + d)

/-- Python's `int(str)` on an optionally signed run of decimal digits;
`none` for anything else (the ValueError of `int("abc")`). -/
def pyInt (s : String) : Option Int :=
  match s.toList with
  | [] => none
  | '-' :: cs =>
    match cs with
    | [] => none
    | _ => (digitsToNat cs 0).map (fun n => -(n : Int))
  | '+' :: cs =>
    match cs with
    | [] => none
    | _ => (digitsToNat cs 0).map (fun n => (n : Int))
  | cs => (digitsToNat cs 0).map (fun n => (n : Int))

/-- The call `int(number)` inside `Paginator.validate_number`: the page query
parameter (`request.GET.get('page')`, absent → `none`) parsed as an
integer; `none` stands for the PageNotAnInteger condition. -/
def parsePage (page : Option String) : Option Int :=
  page.bind pyInt

/-- The page number `post_list` resolves (views.py:91-100): a
PageNotAnInteger from `paginator.page(page)` is caught and page 1 served;
an EmptyPage (page number below 1 or beyond `num_pages`) is caught and the
last page served. -/
def resolvePage (count perPage : Nat) (page : Option String) : Nat :=
  match parsePage page with
  | none => 1
  | some n =>
    if n < 1 then numPages count perPage
    else if (numPages count perPage : Int) < n then numPages count perPage
    else n.toNat

/-- The rows of page `pageNum` (1-based) under page size `perPage`:
`Paginator.page`'s slice `object_list[(number-1)*per_page : number*per_page]`. -/
def pageSlice (l : List Post) (perPage pageNum : Nat) : List Post :=
  (l.drop ((pageNum - 1) * perPage)).take perPage

/-- The view-model `post_list` renders (views.py:101-102): the posts of
the served page, its page number, and the resolved tag filter. -/
structure ListResult where
  posts : List Post
  pageNumber : Nat
  tag : Option Tag
deriving DecidableEq, Repr

/-- Paginate `posts` as views.py:91-100 does. -/
def paginate (posts : List Post) (pageParam : Option String) (perPage : Nat)
    (tag : Option Tag) : ListResult :=
  let pn := resolvePage posts.length perPage pageParam
  { posts := pageSlice posts perPage pn
    pageNumber := pn
    tag := tag }

/-- The `post_list` view (views.py:71-102): all published posts, narrowed
to a tag when `tagSlug` is given (`get_object_or_404(Tag, slug=tag_slug)`,
views.py:88 — `none` on an unknown tag slug), then paginated with
`posts_on_page` (default 3) posts per page. -/
def postList (s : Store) (tagSlug : Option String) (pageParam : Option String)
    (postsOnPage : Nat := 3) : Option ListResult :=
  let pubs := publishedPosts s
  match tagSlug with
  | none => some (paginate pubs pageParam postsOnPage none)
  | some ts =>
    match s.tags.find? (fun t => t.slug = ts) with
    | none => none
    | some tag =>
      let filtered := pubs.filter (fun p => p.tags.contains tag.id)
      some (paginate filtered pageParam postsOnPage (some tag))

/-- The similarity threshold of views.py:121. -/
def threshold : ℚ := 3 / 1000

/-- A post's search score under similarity function `sim` (an external
collaborator standing for Postgres trigram similarity):
`Greatest(TrigramSimilarity('title', query), TrigramSimilarity('body', query))`
(views.py:126-129). -/
def searchScore (sim : String → String → ℚ) (q : String) (p : Post) : ℚ :=
  max (sim p.title q) (sim p.body q)

/-- The ordering `order_by('-similarity')` of views.py:132: descending
score. -/
def searchRel (a b : Post × ℚ) : Prop :=
  b.2 ≤ a.2

instance : DecidableRel searchRel := fun a b => by
  unfold searchRel; infer_instance

instance : IsTotal (Post × ℚ) searchRel where
  total a b := le_total b.2 a.2

instance : IsTrans (Post × ℚ) searchRel where
  trans _ _ _ hab hbc := le_trans hbc hab

/-- The search query of views.py:124-132: `Post.objects` (the whole Post
table) annotated with the similarity score, filtered by
`similarity__gte=threshold`, ordered by descending similarity. -/
def searchResults (s : Store) (q : String) (sim : String → String → ℚ) :
    List (Post × ℚ) :=
  List.insertionSort searchRel
    ((s.posts.map (fun p => (p, searchScore sim q p))).filter
      (fun pr => threshold ≤ pr.2))

/-- The `post_search` view (views.py:105-134). `q` is the `query` GET
parameter (`none` when absent). SearchForm's single required CharField
makes the form valid exactly when the parameter is present and non-empty;
an absent or invalid query runs no query and renders an empty result list
(views.py:116-119). -/
def postSearch (s : Store) (q : Option String) (sim : String → String → ℚ) :
    List (Post × ℚ) :=
  match q with
  | none => []
  | some qs => if qs = "" then [] else searchResults s qs sim

/-- The data a share POST submits: the fields of EmailPostForm
(views.py:156). -/
structure ShareFormData where
  name : String
  email : String
  destination : String
  comments : String
deriving DecidableEq, Repr

/-- An outbound email as `send_mail(subject, message, from_email,
[cd['destination']])` receives it (views.py:174). -/
structure Email where
  subject : String
  message : String
  fromAddr : String
  recipients : List String
deriving DecidableEq, Repr

/-- Modelled from the spec: `post.get_absolute_url()` of
src/blog/models.py (not in src/), "an absolute URL to it" — the
date-and-slug path of the post's detail page. -/
def getAbsoluteUrl (p : Post) : String :=
  "/blog/" ++ toString p.publish.year ++ "/" ++ toString p.publish.month ++
    "/" ++ toString p.publish.day ++ "/" ++ p.slug ++ "/"

/-- The email `post_share_by_email` composes on a valid POST
(views.py:164-174): subject and message referencing the post's title and
its absolute URL, the fixed sender, the single destination recipient. -/
def shareEmail (baseUrl : String) (p : Post) (d : ShareFormData) : Email :=
  let postUrl := baseUrl ++ getAbsoluteUrl p
  { subject := d.name ++ " (" ++ d.email ++ ") recommends you reading " ++ p.title
    message := "Read \"" ++ p.title ++ "\" at " ++ postUrl ++ "\n\n" ++
      d.name ++ "\x27s comments:" ++ d.comments
    fromAddr := "django.framework.email.test@gmail.com"
    recipients := [d.destination] }

/-- The view-model `post_share_by_email` renders (views.py:180-182): the
resolved post, the form handed back (`none` the blank `EmailPostForm()` of
the GET branch, `some d` the bound form of a POST), and the `sent` /
`sent_failed` flags. -/
structure ShareResult where
  post : Post
  form : Option ShareFormData
  sent : Bool
  sentFailed : Bool
deriving DecidableEq, Repr

/-- The body of `post_share_by_email` on a resolved post
(views.py:152-182): the GET branch renders the blank form; a POST with a
valid form composes the email and attempts dispatch inside the
`try/except` of views.py:173-177, any raised exception setting
`sent_failed` instead of propagating; an invalid POST just re-renders.
Second component: the emails handed to the transport. -/
def shareRender {ε : Type} (post : Post) (req : Option ShareFormData)
    (valid : ShareFormData → Bool) (dispatch : Email → Except ε Unit)
    (baseUrl : String) : ShareResult × List Email :=
  match req with
  | none => ({ post := post, form := none, sent := false, sentFailed := false }, [])
  | some d =>
    if valid d then
      let em := shareEmail baseUrl post d
      match dispatch em with
      | Except.ok _ =>
        ({ post := post, form := some d, sent := true, sentFailed := false }, [em])
      | Except.error _ =>
        ({ post := post, form := some d, sent := false, sentFailed := true }, [em])
    else
      ({ post := post, form := some d, sent := false, sentFailed := false }, [])

/-- The `post_share_by_email` view (views.py:137-182). `req` is `none`
for GET, `some d` for a POST with form data `d`; `valid` is EmailPostForm
validation; `dispatch` the mail transport, whose `Except.error` outcome
(any error type ε — "any exception of any kind") models a raised
exception. Besides the rendered result (`none` on the lookup's Http404) it
returns the list of emails handed to the transport. -/
def postShare {ε : Type} (s : Store) (postId : Nat)
    (req : Option ShareFormData) (valid : ShareFormData → Bool)
    (dispatch : Email → Except ε Unit) (baseUrl : String) :
    Option ShareResult × List Email :=
  match s.posts.find? (fun p => p.id = postId && p.status = Status.published) with
  | none => (none, [])
  | some post =>
    let r := shareRender post req valid dispatch baseUrl
    (some r.1, r.2)

/-! Concrete rows and collaborators used by the closed witness and
counterexample theorems below. -/

/-- A published post with two tags. -/
def post1 : Post :=
  { id := 1
    slug := "hello"
    title := "Hello"
    body := "World"
    status := Status.published
    publish := { year := 2020, month := 1, day := 2, ts := 100 }
    tags := [10, 11] }

/-- A draft post. -/
def draftPost : Post :=
  { id := 2
    slug := "secret-draft"
    title := "secret"
    body := "hidden"
    status := Status.draft
    publish := { year := 2021, month := 2, day := 3, ts := 200 }
    tags := [] }

/-- A store holding the one published post. -/
def store1 : Store :=
  { posts := [post1], tags := [], comments := [] }

/-- A store holding the one draft post. -/
def draftStore : Store :=
  { posts := [draftPost], tags := [], comments := [] }

/-- A comment submission with an empty required body field. -/
def badComment : CommentFormData :=
  { name := "Ann", email := "ann@example.com", body := "", postRef := none }

/-- A complete comment submission, smuggling a bogus post reference. -/
def goodComment : CommentFormData :=
  { name := "Ann", email := "ann@example.com", body := "Nice!", postRef := some 999 }

/-- A complete share submission. -/
def shareData1 : ShareFormData :=
  { name := "Ann"
    email := "ann@example.com"
    destination := "bob@example.com"
    comments := "enjoy" }

/-- A mail transport that always raises. -/
def failDispatch : Email → Except String Unit :=
  fun _ => Except.error "SMTPException"

/-- A similarity function for the concrete search scenarios: score 1 on an
exact match, 0 otherwise. -/
def simExact : String → String → ℚ :=
  fun a b => if a = b then 1 else 0

/-! Helper lemmas shared by the claim theorems. -/

theorem mem_publishedPosts {s : Store} {p : Post} :
    p ∈ publishedPosts s ↔ p ∈ s.posts ∧ p.status = Status.published := by
  simp [publishedPosts]

theorem detailLookup_isSome_iff {s : Store} {year month day : Nat} {slug : String} :
    (detailLookup s year month day slug).isSome ↔
      ∃ p ∈ s.posts, detailMatch slug year month day p := by
  unfold detailLookup
  rw [List.find?_isSome]
  simp

theorem detailLookup_some_match {s : Store} {year month day : Nat} {slug : String}
    {p : Post} (h : detailLookup s year month day slug = some p) :
    p ∈ s.posts ∧ detailMatch slug year month day p := by
  refine ⟨List.mem_of_find?_eq_some h, ?_⟩
  have := List.find?_some h
  simpa using this

theorem postDetail_eq_some {s : Store} {year month day : Nat} {slug : String}
    {req : Option CommentFormData} {valid : CommentFormData → Bool}
    {newId limit : Nat} {r : DetailResult}
    (h : postDetail s year month day slug req valid newId limit = some r) :
    ∃ post, detailLookup s year month day slug = some post ∧
      r = detailRender s post req valid newId limit := by
  unfold postDetail at h
  cases hl : detailLookup s year month day slug with
  | none => rw [hl] at h; exact absurd h (by simp)
  | some post =>
    rw [hl] at h
    exact ⟨post, rfl, (Option.some_inj.mp h).symm⟩

theorem detailRender_invalid {s : Store} {post : Post} {d : CommentFormData}
    {valid : CommentFormData → Bool} {newId limit : Nat}
    (hv : valid d = false) :
    detailRender s post (some d) valid newId limit =
      { post := post
        comments := s.comments.filter (fun c => c.post = post.id && c.active)
        newComment := none
        commentForm := some none
        similarPosts := similarPosts s post limit
        store := s } := by
  simp [detailRender, hv]

theorem detailRender_valid {s : Store} {post : Post} {d : CommentFormData}
    {valid : CommentFormData → Bool} {newId limit : Nat}
    (hv : valid d = true) :
    detailRender s post (some d) valid newId limit =
      (let c := { commentFromForm d newId with post := post.id }
       let s2 : Store := { s with comments := s.comments ++ [c] }
       { post := post
         comments := s2.comments.filter (fun c => c.post = post.id && c.active)
         newComment := some c
         commentForm := some (some d)
         similarPosts := similarPosts s2 post limit
         store := s2 }) := by
  simp [detailRender, hv]

/-! The claim theorems. -/

/-- C7: a post-detail request resolves successfully exactly when some
post of the store matches the full 4-tuple (slug, year, month, day) of
its publish date with status PUBLISHED; any mismatch (wrong date, wrong
slug, or unpublished status) yields the NOT_FOUND condition (`none`). -/
theorem postDetail_found_iff_match (s : Store) (year month day : Nat)
    (slug : String) (req : Option CommentFormData)
    (valid : CommentFormData → Bool) (newId limit : Nat) :
    (postDetail s year month day slug req valid newId limit).isSome ↔
      ∃ p ∈ s.posts, detailMatch slug year month day p := by
  rw [← detailLookup_isSome_iff]
  unfold postDetail
  cases detailLookup s year month day slug <;> rfl

/-- C5: a comment POST whose form data fails validation persists nothing:
the store after the request is the store before it (in particular the
post's comment count is unchanged). -/
theorem postDetail_invalid_no_persist (s : Store) (year month day : Nat)
    (slug : String) (d : CommentFormData) (valid : CommentFormData → Bool)
    (newId limit : Nat) (r : DetailResult)
    (hv : valid d = false)
    (hr : postDetail s year month day slug (some d) valid newId limit = some r) :
    r.store = s := by
  obtain ⟨post, _, hrr⟩ := postDetail_eq_some hr
  rw [hrr, detailRender_invalid hv]

/-- Witness for C5: a concrete invalid submission against the concrete
store leaves the store unchanged. -/
theorem postDetail_invalid_no_persist_witness :
    (detailRender store1 post1 (some badComment) specCommentValid 1 4).store = store1 :=
  postDetail_invalid_no_persist store1 2020 1 2 "hello" badComment specCommentValid
    1 4 (detailRender store1 post1 (some badComment) specCommentValid 1 4) rfl rfl

/-- C2 fails on the code: at a concrete comment POST whose data fails
validation (empty required body), the view renders back the blank unbound
`CommentForm()` of views.py:52 (`some none`), not a bound form carrying
the submitted field values and their errors (`some (some badComment)`). -/
theorem postDetail_invalid_form_cex :
    specCommentValid badComment = false ∧
    (postDetail store1 2020 1 2 "hello" (some badComment) specCommentValid 1 4).map
        DetailResult.commentForm = some (some none) ∧
    (postDetail store1 2020 1 2 "hello" (some badComment) specCommentValid 1 4).map
        DetailResult.commentForm ≠ some (some (some badComment)) := by
  refine ⟨rfl, rfl, ?_⟩
  intro h
  simp only [Option.map, detailRender] at h
  exact absurd (Option.some_inj.mp (Option.some_inj.mp h)) (by decide)

/-- C2 (amended): a comment POST whose form data fails validation
persists nothing and renders back a fresh blank form — the submitted
field values and the field errors are discarded, not preserved. -/
theorem postDetail_invalid_blank_form (s : Store) (year month day : Nat)
    (slug : String) (d : CommentFormData) (valid : CommentFormData → Bool)
    (newId limit : Nat) (r : DetailResult)
    (hv : valid d = false)
    (hr : postDetail s year month day slug (some d) valid newId limit = some r) :
    r.commentForm = some none ∧ r.newComment = none ∧ r.store = s := by
  obtain ⟨post, _, hrr⟩ := postDetail_eq_some hr
  rw [hrr, detailRender_invalid hv]
  exact ⟨rfl, rfl, rfl⟩

/-- Witness for the amended C2 at a concrete invalid submission. -/
theorem postDetail_invalid_blank_form_witness :
    (detailRender store1 post1 (some badComment) specCommentValid 1 4).commentForm
        = some none ∧
    (detailRender store1 post1 (some badComment) specCommentValid 1 4).newComment
        = none ∧
    (detailRender store1 post1 (some badComment) specCommentValid 1 4).store = store1 :=
  postDetail_invalid_blank_form store1 2020 1 2 "hello" badComment specCommentValid
    1 4 (detailRender store1 post1 (some badComment) specCommentValid 1 4) rfl rfl

/-- C6: a comment POST whose form data validates persists exactly one new
comment, built from the submitted fields but with its post reference
overwritten server-side by the id of the post resolved from the URL
parameters (which matches slug, date and PUBLISHED status) — regardless
of any post reference in the client-submitted data. -/
theorem postDetail_comment_server_bound (s : Store) (year month day : Nat)
    (slug : String) (d : CommentFormData) (valid : CommentFormData → Bool)
    (newId limit : Nat) (r : DetailResult)
    (hv : valid d = true)
    (hr : postDetail s year month day slug (some d) valid newId limit = some r) :
    r.newComment = some { commentFromForm d newId with post := r.post.id } ∧
    r.store.comments = s.comments ++ [{ commentFromForm d newId with post := r.post.id }] ∧
    detailMatch slug year month day r.post := by
  obtain ⟨post, hl, hrr⟩ := postDetail_eq_some hr
  have hm := detailLookup_some_match hl
  rw [hrr, detailRender_valid hv]
  exact ⟨rfl, rfl, hm.2⟩

/-- Witness for C6: a concrete valid submission (carrying a bogus client
post reference 999) is persisted bound to the resolved post's id. -/
theorem postDetail_comment_server_bound_witness :
    (detailRender store1 post1 (some goodComment) specCommentValid 7 4).newComment
        = some { commentFromForm goodComment 7 with
                   post := (detailRender store1 post1 (some goodComment) specCommentValid 7 4).post.id } ∧
    (detailRender store1 post1 (some goodComment) specCommentValid 7 4).store.comments
        = store1.comments ++
          [{ commentFromForm goodComment 7 with
               post := (detailRender store1 post1 (some goodComment) specCommentValid 7 4).post.id }] ∧
    detailMatch "hello" 2020 1 2
      (detailRender store1 post1 (some goodComment) specCommentValid 7 4).post :=
  postDetail_comment_server_bound store1 2020 1 2 "hello" goodComment specCommentValid
    7 4 (detailRender store1 post1 (some goodComment) specCommentValid 7 4) rfl rfl

/-- C8: a non-integer (or absent) page parameter resolves to page 1; a
page number beyond the last page resolves to the last page; and the
post-list view always serves a page — an out-of-range page request is
never an error to the caller. -/
theorem postList_page_clamp (s : Store) (pp : Option String) (k : Nat) :
    (parsePage pp = none → ∀ count perPage, resolvePage count perPage pp = 1) ∧
    (∀ n : Int, parsePage pp = some n → ∀ count perPage,
      (numPages count perPage : Int) < n →
      resolvePage count perPage pp = numPages count perPage) ∧
    ∃ r, postList s none pp k = some r ∧
      r.pageNumber = resolvePage (publishedPosts s).length k pp := by
  refine ⟨?_, ?_, ?_⟩
  · intro h count perPage
    unfold resolvePage
    rw [h]
  · intro n h count perPage hlt
    unfold resolvePage
    rw [h]
    show (if n < 1 then numPages count perPage
          else if ((numPages count perPage : Int) < n) then numPages count perPage
          else n.toNat) = numPages count perPage
    by_cases h1 : n < 1
    · rw [if_pos h1]
    · rw [if_neg h1, if_pos hlt]
  · exact ⟨paginate (publishedPosts s) pp k none, rfl, rfl⟩

/-- C10: the share view resolves its post by id together with status
PUBLISHED — the NOT_FOUND condition arises exactly when no post of the
store is both the requested id and PUBLISHED (a draft or a nonexistent id),
and in that case no email is handed to the mail transport. -/
theorem postShare_published_lookup {ε : Type} (s : Store) (pid : Nat)
    (req : Option ShareFormData) (valid : ShareFormData → Bool)
    (dispatch : Email → Except ε Unit) (base : String) :
    ((postShare s pid req valid dispatch base).1 = none ↔
      ¬ ∃ p ∈ s.posts, p.id = pid ∧ p.status = Status.published) ∧
    ((postShare s pid req valid dispatch base).1 = none →
      (postShare s pid req valid dispatch base).2 = []) := by
  unfold postShare
  cases hf : s.posts.find? (fun p => p.id = pid && p.status = Status.published) with
  | none =>
    simp only [hf]
    rw [List.find?_eq_none] at hf
    constructor
    · constructor
      · rintro - ⟨p, hp, hid, hst⟩
        exact hf p hp (by simp [hid, hst])
      · intro _; trivial
    · intro _; trivial
  | some post =>
    simp only [hf]
    have hmem := List.mem_of_find?_eq_some hf
    have hp := List.find?_some hf
    simp only [Bool.and_eq_true, decide_eq_true_eq] at hp
    constructor
    · constructor
      · intro h; simp at h
      · intro h; exact absurd ⟨post, hmem, hp.1, hp.2⟩ h
    · intro h; simp at h

/-- C9: on a share POST with a valid form, a mail dispatch that raises —
whatever the error — is caught and reported as sent = false with
sent_failed = true, never propagating out of the handler; a successful
dispatch is reported as sent = true with sent_failed = false. -/
theorem postShare_dispatch_flags {ε : Type} (s : Store) (pid : Nat)
    (d : ShareFormData) (valid : ShareFormData → Bool)
    (dispatch : Email → Except ε Unit) (base : String) (r : ShareResult)
    (hv : valid d = true)
    (hr : (postShare s pid (some d) valid dispatch base).1 = some r) :
    (∀ e, dispatch (shareEmail base r.post d) = Except.error e →
      r.sent = false ∧ r.sentFailed = true) ∧
    (dispatch (shareEmail base r.post d) = Except.ok () →
      r.sent = true ∧ r.sentFailed = false) := by
  unfold postShare at hr
  cases hf : s.posts.find? (fun p => p.id = pid && p.status = Status.published) with
  | none => rw [hf] at hr; exact absurd hr (by simp)
  | some post =>
    rw [hf] at hr
    simp only [Option.some_inj] at hr
    subst hr
    unfold shareRender
    simp only [hv, if_true]
    cases hd : dispatch (shareEmail base post d) with
    | ok u => cases u; simp [hd]
    | error e0 => simp [hd]

/-- Witness for C9: against a transport that always raises, the concrete
valid share POST reports sent = false and sent_failed = true. -/
theorem postShare_dispatch_flags_witness :
    (∀ e, failDispatch
        (shareEmail "http://h"
          (shareRender post1 (some shareData1) (fun _ => true) failDispatch "http://h").1.post
          shareData1) = Except.error e →
      (shareRender post1 (some shareData1) (fun _ => true) failDispatch "http://h").1.sent = false ∧
      (shareRender post1 (some shareData1) (fun _ => true) failDispatch "http://h").1.sentFailed = true) ∧
    (failDispatch
        (shareEmail "http://h"
          (shareRender post1 (some shareData1) (fun _ => true) failDispatch "http://h").1.post
          shareData1) = Except.ok () →
      (shareRender post1 (some shareData1) (fun _ => true) failDispatch "http://h").1.sent = true ∧
      (shareRender post1 (some shareData1) (fun _ => true) failDispatch "http://h").1.sentFailed = false) :=
  postShare_dispatch_flags store1 1 shareData1 (fun _ => true) failDispatch "http://h"
    (shareRender post1 (some shareData1) (fun _ => true) failDispatch "http://h").1 rfl rfl

theorem mem_similarCandidates {s : Store} {p q : Post} {n : Nat}
    (h : (q, n) ∈ similarCandidates s p) :
    q ∈ s.posts ∧ q.status = Status.published ∧ q.id ≠ p.id ∧
      (∃ t ∈ q.tags, t ∈ p.tags) ∧ n = sharedTagCount q p.tags := by
  unfold similarCandidates at h
  rcases List.mem_map.mp h with ⟨a, ha, heq⟩
  obtain ⟨rfl, rfl⟩ : a = q ∧ sharedTagCount a p.tags = n := by
    exact ⟨congrArg Prod.fst heq, congrArg Prod.snd heq⟩
  rcases List.mem_filter.mp ha with ⟨ha1, hne⟩
  rcases List.mem_filter.mp ha1 with ⟨hpub, hshare⟩
  rcases mem_publishedPosts.mp hpub with ⟨hmem, hst⟩
  refine ⟨hmem, hst, by simpa using hne, ?_, rfl⟩
  simpa using hshare

theorem mem_similarPosts {s : Store} {p q : Post} {n limit : Nat}
    (h : (q, n) ∈ similarPosts s p limit) :
    q ∈ s.posts ∧ q.status = Status.published ∧ q.id ≠ p.id ∧
      (∃ t ∈ q.tags, t ∈ p.tags) ∧ n = sharedTagCount q p.tags := by
  unfold similarPosts at h
  exact mem_similarCandidates
    ((List.perm_insertionSort simRel (similarCandidates s p)).subset
      (List.take_subset _ _ h))

/-- C3: every entry of the recommendation list for a post `p` is a
published post distinct from `p` sharing at least one tag with `p`,
annotated with its shared-tag count (necessarily ≥ 1); the list is
ordered by descending shared-tag count then descending publish timestamp,
holds at most `limit` entries, is empty when `p` has no tags, and is what
the detail view serves with its caller-supplied limit (default 4). -/
theorem similarPosts_spec (s : Store) (p : Post) (limit : Nat) :
    (∀ q n, (q, n) ∈ similarPosts s p limit →
      q.status = Status.published ∧ q.id ≠ p.id ∧
      (∃ t ∈ q.tags, t ∈ p.tags) ∧ n = sharedTagCount q p.tags ∧ 1 ≤ n) ∧
    List.Pairwise simRel (similarPosts s p limit) ∧
    (similarPosts s p limit).length ≤ limit ∧
    (p.tags = [] → similarPosts s p limit = []) ∧
    (∀ year month day slug req valid newId r,
      postDetail s year month day slug req valid newId = some r →
      r.similarPosts = similarPosts r.store r.post 4) := by
  refine ⟨?_, ?_, ?_, ?_, ?_⟩
  · intro q n h
    obtain ⟨_, hst, hne, hsh, hcnt⟩ := mem_similarPosts h
    refine ⟨hst, hne, hsh, hcnt, ?_⟩
    obtain ⟨t, ht, htp⟩ := hsh
    have htf : t ∈ q.tags.filter (fun t => p.tags.contains t) :=
      List.mem_filter.mpr ⟨ht, by simpa⟩
    rw [hcnt]
    exact List.length_pos.mpr (List.ne_nil_of_mem htf)
  · exact List.Pairwise.sublist (List.take_sublist _ _)
      (List.sorted_insertionSort simRel _)
  · exact List.length_take_le _ _
  · intro hp
    have h1 : (publishedPosts s).filter (fun q => q.tags.any fun t => p.tags.contains t)
        = [] := by
      rw [hp]; simp
    unfold similarPosts similarCandidates
    rw [h1]
    simp [List.insertionSort]
  · intro year month day slug req valid newId r hr
    obtain ⟨post, _, hrr⟩ := postDetail_eq_some hr
    subst hrr
    rfl

/-- C4: each post's search score is the maximum of its title similarity
and body similarity to the query; a post is in the results exactly when
that maximum reaches the inclusive 0.003 threshold (every post of the
store at or above it is included with its score, every entry is at or
above it), and the results are ordered by descending score. -/
theorem searchResults_spec (s : Store) (q : String) (sim : String → String → ℚ) :
    (∀ p r, (p, r) ∈ searchResults s q sim →
      p ∈ s.posts ∧ r = max (sim p.title q) (sim p.body q) ∧ threshold ≤ r) ∧
    (∀ p ∈ s.posts, threshold ≤ max (sim p.title q) (sim p.body q) →
      (p, max (sim p.title q) (sim p.body q)) ∈ searchResults s q sim) ∧
    List.Pairwise searchRel (searchResults s q sim) := by
  refine ⟨?_, ?_, ?_⟩
  · intro p r h
    have h2 := (List.perm_insertionSort searchRel _).subset h
    rcases List.mem_filter.mp h2 with ⟨hm, hth⟩
    rcases List.mem_map.mp hm with ⟨a, ha, heq⟩
    obtain ⟨rfl, rfl⟩ : a = p ∧ searchScore sim q a = r :=
      ⟨congrArg Prod.fst heq, congrArg Prod.snd heq⟩
    exact ⟨ha, rfl, by simpa using hth⟩
  · intro p hp hth
    apply (List.perm_insertionSort searchRel _).mem_iff.mpr
    exact List.mem_filter.mpr ⟨List.mem_map.mpr ⟨p, hp, rfl⟩, by simpa using hth⟩
  · exact List.sorted_insertionSort searchRel _

theorem pageSlice_subset (l : List Post) (perPage pn : Nat) :
    pageSlice l perPage pn ⊆ l :=
  fun _ h => List.drop_subset _ _ (List.take_subset _ _ h)

theorem shareRender_fst_post {ε : Type} (post : Post) (req : Option ShareFormData)
    (valid : ShareFormData → Bool) (dispatch : Email → Except ε Unit)
    (base : String) :
    (shareRender post req valid dispatch base).1.post = post := by
  unfold shareRender
  cases req with
  | none => rfl
  | some d =>
    cases hv : valid d with
    | false => simp only [hv]; rfl
    | true =>
      simp only [hv, if_true]
      cases dispatch (shareEmail base post d) <;> rfl

/-- C1 fails on the code: `post_search` queries `Post.objects` — the
whole Post table, not the published view. At a concrete store holding one
DRAFT post whose title equals the query, the search result list contains
that draft post (score 1 ≥ 0.003) although its status is not PUBLISHED. -/
theorem search_includes_draft_cex :
    (draftPost, (1 : ℚ)) ∈ postSearch draftStore (some "secret") simExact ∧
    draftPost.status ≠ Status.published := by
  refine ⟨?_, by decide⟩
  have hs : searchScore simExact "secret" draftPost = 1 := by
    unfold searchScore simExact draftPost
    rw [if_pos rfl, if_neg (by decide)]
    norm_num
  have h1 : searchResults draftStore "secret" simExact = [(draftPost, 1)] := by
    unfold searchResults
    show List.insertionSort searchRel
        (List.filter (fun pr => decide (threshold ≤ pr.2))
          [(draftPost, searchScore simExact "secret" draftPost)]) = [(draftPost, 1)]
    rw [hs, List.filter_cons,
      if_pos (decide_eq_true (show threshold ≤ ((draftPost, (1 : ℚ))).2 by
        norm_num [threshold]))]
    rfl
  show (draftPost, (1 : ℚ)) ∈ postSearch draftStore (some "secret") simExact
  unfold postSearch
  show (draftPost, (1 : ℚ)) ∈
    (if ("secret" : String) = "" then [] else searchResults draftStore "secret" simExact)
  rw [if_neg (by decide), h1]
  exact List.mem_singleton.mpr rfl

/-- C1 (amended): the post-list, post-detail (main post and its
recommendations) and share views render only posts with status PUBLISHED;
the search view, however, queries the whole Post table, so its guarantee
does not extend to search (see the counterexample). -/
theorem nonsearch_views_published_only {ε : Type} (s : Store)
    (tagSlug pp : Option String) (k : Nat)
    (year month day : Nat) (slug : String) (req : Option CommentFormData)
    (valid : CommentFormData → Bool) (newId limit : Nat)
    (pid : Nat) (sreq : Option ShareFormData) (svalid : ShareFormData → Bool)
    (dispatch : Email → Except ε Unit) (base : String) :
    (∀ res, postList s tagSlug pp k = some res →
      ∀ p ∈ res.posts, p.status = Status.published) ∧
    (∀ r, postDetail s year month day slug req valid newId limit = some r →
      r.post.status = Status.published ∧
      ∀ q n, (q, n) ∈ r.similarPosts → q.status = Status.published) ∧
    (∀ r, (postShare s pid sreq svalid dispatch base).1 = some r →
      r.post.status = Status.published) := by
  refine ⟨?_, ?_, ?_⟩
  · intro res hres p hp
    have hsub : res.posts ⊆ publishedPosts s := by
      cases tagSlug with
      | none =>
        unfold postList at hres
        injection hres with hres
        rw [← hres]
        exact pageSlice_subset _ _ _
      | some ts =>
        unfold postList at hres
        cases hf : s.tags.find? (fun t => t.slug = ts) with
        | none => simp only [hf] at hres; exact absurd hres (by simp)
        | some tag =>
          simp only [hf, Option.some.injEq] at hres
          rw [← hres]
          intro x hx
          exact (List.mem_filter.mp (pageSlice_subset _ _ _ hx)).1
    exact (mem_publishedPosts.mp (hsub hp)).2
  · intro r hr
    obtain ⟨post, hl, hrr⟩ := postDetail_eq_some hr
    have hm := detailLookup_some_match hl
    subst hrr
    refine ⟨hm.2.2.1, ?_⟩
    intro q n hq
    exact (mem_similarPosts hq).2.1
  · intro r hr
    unfold postShare at hr
    cases hf : s.posts.find? (fun p => p.id = pid && p.status = Status.published) with
    | none => rw [hf] at hr; exact absurd hr (by simp)
    | some post =>
      rw [hf] at hr
      have hp := List.find?_some hf
      simp only [Bool.and_eq_true, decide_eq_true_eq] at hp
      have : r.post = post := by
        rw [← Option.some_inj.mp hr]
        exact shareRender_fst_post post sreq svalid dispatch base
      rw [this]
      exact hp.2

end Blog
